import Mathlib

/-!
Shallow embedding of the ad-request tracker (`AdRequestTracker` and its
helpers) from the repository source, together with theorems settling the
frozen claims about it.

Modelling conventions:
* Python exceptions are modelled with `Except String`; the error string
  names the Python exception class.
* Timestamps (`datetime` values) are modelled as integers (seconds since
  an arbitrary epoch); `timedelta.days` is floor division by 86400, and
  the ISO text that a DATETIME column stores for a bound datetime is
  modelled abstractly as the decimal rendering of the integer, with
  `datetime.fromisoformat` as its inverse.
* SQLite rows fetched with SELECT * are dynamically typed; `PyVal` models
  the Python values such a row holds, in schema column order.
* Results of Python float (true) division are modelled exactly as `ℚ`.
* Python `int(s)` is modelled as an optional sign followed by ASCII
  digits; whitespace stripping, underscores and non-ASCII digits of the
  real `int` are not modelled.
* The SHA-256 request-id generator is not modelled arithmetically; the
  generated id is passed to the facade as an argument.
* The geolocation network call is represented by an oracle argument
  holding the optional response the external service would return.
-/

/-- A dynamically typed Python value as returned in a sqlite3 row. -/
inductive PyVal where
  | none
  | str (s : String)
  | int (n : Int)
  | real (q : ℚ)
deriving DecidableEq

/-- Helper for `pyStrSplit`: walk the characters, cutting at each
separator occurrence; `acc` holds the current chunk reversed. -/
def splitOnCharAux (sep : Char) : List Char → List Char → List (List Char)
  | [], acc => [acc.reverse]
  | c :: rest, acc =>
    if c = sep then acc.reverse :: splitOnCharAux sep rest []
    else splitOnCharAux sep rest (c :: acc)

/-- Model of Python `s.split(sep)` for a single-character separator
(the only form the source uses). This is what `String.splitOn` computes
on these calls, but it is defined by structural recursion so that
concrete instances reduce inside the kernel. -/
def pyStrSplit (s : String) (sep : Char) : List String :=
  (splitOnCharAux sep s.toList []).map (fun l => ⟨l⟩)

/-- Truthiness of a Python value, as used by `if existing[2]`. -/
def pyTruthy : PyVal → Bool
  | .none => false
  | .str s => decide (s ≠ "")
  | .int n => decide (n ≠ 0)
  | .real q => decide (q ≠ 0)

/-- `v.split(sep)`: only strings have a `split` method; on any other
value Python raises AttributeError. -/
def pySplit (v : PyVal) (sep : Char) : Except String (List String) :=
  match v with
  | .str s => .ok (pyStrSplit s sep)
  | _ => .error "AttributeError: object has no attribute split"

/-- Numeric value of a nonempty list of ASCII digits. -/
def digitsToNat (l : List Char) : Option Nat :=
  if l ≠ [] ∧ l.all Char.isDigit = true then
    some (l.foldl (fun a c => a * 10 + (c.toNat - 48)) 0)
  else Option.none

/-- Model of Python `int(s)` on a string: an optional sign followed by
one or more digits; anything else fails (raises ValueError). -/
def pyIntOfString (s : String) : Option Int :=
  match s.toList with
  | '-' :: rest => (digitsToNat rest).map (fun n => -(n : Int))
  | '+' :: rest => (digitsToNat rest).map (fun n => (n : Int))
  | l => (digitsToNat l).map (fun n => (n : Int))

/-- `int(s)` as an expression: raises ValueError when unparsable. -/
def pyInt (s : String) : Except String Int :=
  match pyIntOfString s with
  | some n => .ok n
  | Option.none => .error "ValueError: invalid literal for int"

/-- `lst[i]` on a list of strings: raises IndexError when out of range. -/
def pyIndex (l : List String) (i : Nat) : Except String String :=
  match l.get? i with
  | some v => .ok v
  | Option.none => .error "IndexError: list index out of range"

/-- Model of `datetime.fromisoformat` applied to a fetched column value,
composed with the sqlite3 adapter that serialized the bound datetime:
recovers the integer timestamp from its stored text; raises TypeError on
a non-string value. -/
def pyFromIso (v : PyVal) : Except String Int :=
  match v with
  | .str s =>
    match pyIntOfString s with
    | some n => .ok n
    | Option.none => .error "ValueError: invalid isoformat string"
  | _ => .error "TypeError: fromisoformat argument must be str"

/-- Translation of `AdRequestTracker._estimate_country_from_ip`:
split the address on dots; when exactly four parts, classify by the
integer value of the first part (raising ValueError when it is not an
integer); otherwise return "UNKNOWN". -/
def estimate_country_from_ip (ip_address : String) : Except String String :=
  let ip_parts := pyStrSplit ip_address '.'
  if ip_parts.length = 4 then
    match pyInt (ip_parts.getD 0 "") with
    | .error e => .error e
    | .ok first_octet =>
      if 1 ≤ first_octet ∧ first_octet ≤ 126 then .ok "US"
      else if 128 ≤ first_octet ∧ first_octet ≤ 191 then .ok "EU"
      else if 192 ≤ first_octet ∧ first_octet ≤ 223 then .ok "ASIA"
      else .ok "UNKNOWN"
  else .ok "UNKNOWN"

/-- Translation of `AdRequestTracker._ip_to_int`:
`(int(parts[0]) << 24) + (int(parts[1]) << 16) + (int(parts[2]) << 8) + int(parts[3])`,
with indexing and parsing evaluated left to right, either of which may
raise. Python ints are unbounded, so no 32-bit masking happens. -/
def ip_to_int (ip : String) : Except String Int :=
  let parts := pyStrSplit ip '.'
  match pyIndex parts 0 with
  | .error e => .error e
  | .ok p0 =>
  match pyInt p0 with
  | .error e => .error e
  | .ok a =>
  match pyIndex parts 1 with
  | .error e => .error e
  | .ok p1 =>
  match pyInt p1 with
  | .error e => .error e
  | .ok b =>
  match pyIndex parts 2 with
  | .error e => .error e
  | .ok p2 =>
  match pyInt p2 with
  | .error e => .error e
  | .ok c =>
  match pyIndex parts 3 with
  | .error e => .error e
  | .ok p3 =>
  match pyInt p3 with
  | .error e => .error e
  | .ok d => .ok (a * 16777216 + b * 65536 + c * 256 + d)

/-- The hardcoded datacenter/VPN ranges of `_detect_vpn_proxy`. -/
def datacenter_ranges : List (String × String) :=
  [("192.0.2.0", "192.0.2.255"),
   ("198.18.0.0", "198.19.255.255"),
   ("100.64.0.0", "100.127.255.255")]

/-- The loop of `_detect_vpn_proxy`: for each range, the chained
comparison `ip_to_int(start) <= ip_num <= ip_to_int(end)` evaluates the
upper bound only when the lower bound check passed. -/
def rangeCheck (ip_num : Int) : List (String × String) → Except String Bool
  | [] => .ok false
  | (s, e) :: rest =>
    match ip_to_int s with
    | .error err => .error err
    | .ok lo =>
      if lo ≤ ip_num then
        match ip_to_int e with
        | .error err => .error err
        | .ok hi => if ip_num ≤ hi then .ok true else rangeCheck ip_num rest
      else rangeCheck ip_num rest

/-- Translation of `AdRequestTracker._detect_vpn_proxy`. -/
def detect_vpn_proxy (ip_address : String) : Except String Bool :=
  match ip_to_int ip_address with
  | .error e => .error e
  | .ok ip_num => rangeCheck ip_num datacenter_ranges

/-- The claim's band table for `estimate_country`: 1-126 US, 128-191 EU,
192-223 ASIA, everything else UNKNOWN. -/
def countryBand (n : Int) : String :=
  if 1 ≤ n ∧ n ≤ 126 then "US"
  else if 128 ≤ n ∧ n ≤ 191 then "EU"
  else if 192 ≤ n ∧ n ≤ 223 then "ASIA"
  else "UNKNOWN"

/-- The claim's three reserved ranges as numeric intervals of 32-bit
address values: 192.0.2.0/24 is [3221225984, 3221226239],
198.18.0.0/15 is [3323068416, 3323199487], and 100.64.0.0/10 is
[1681915904, 1686110207]. -/
def inVpnRanges (n : Int) : Bool :=
  (decide (3221225984 ≤ n) && decide (n ≤ 3221226239)) ||
  (decide (3323068416 ≤ n) && decide (n ≤ 3323199487)) ||
  (decide (1681915904 ≤ n) && decide (n ≤ 1686110207))

/-- Whether a modelled Python call returned normally (`true`) or raised
an exception (`false`). -/
def exceptIsOk {α : Type} : Except String α → Bool
  | .ok _ => true
  | .error _ => false

/-- Whether `_ip_to_int` has enough well-formed input to return: at
least four dot-separated parts whose first four all parse as integers. -/
def ip_parse_ok (ip : String) : Bool :=
  let parts := pyStrSplit ip '.'
  decide (4 ≤ parts.length) &&
    (parts.take 4).all (fun p => (pyIntOfString p).isSome)

/-- A row of the `behavior_patterns` table, in schema column order:
advertising_id (TEXT PRIMARY KEY), total_requests (INTEGER),
avg_requests_per_day (REAL), common_countries (TEXT),
common_ip_prefixes (TEXT), last_seen (DATETIME), first_seen (DATETIME).
The DATETIME columns hold serialized timestamps; here they are kept as
the integer timestamps, serialized on the way out by `toPyRow`. -/
structure ProfileRow where
  advertising_id : String
  total_requests : Int
  avg_requests_per_day : ℚ
  common_countries : String
  common_ip_prefixes : String
  last_seen : Int
  first_seen : Int
deriving DecidableEq

/-- The tuple `SELECT * FROM behavior_patterns ...` hands back to Python:
column index 0 is advertising_id, 1 total_requests, 2 avg_requests_per_day,
3 common_countries, 4 common_ip_prefixes, 5 last_seen, 6 first_seen.
DATETIME columns come back as their stored text. -/
def ProfileRow.toPyRow (r : ProfileRow) : List PyVal :=
  [.str r.advertising_id, .int r.total_requests, .real r.avg_requests_per_day,
   .str r.common_countries, .str r.common_ip_prefixes,
   .str (toString r.last_seen), .str (toString r.first_seen)]

/-- `SELECT * FROM behavior_patterns WHERE advertising_id = ?` followed
by `fetchone()`. -/
def fetchone (tbl : List ProfileRow) (advertising_id : String) : Option ProfileRow :=
  tbl.find? (fun r => r.advertising_id == advertising_id)

/-- `'.'.join(ip_address.split('.')[:2])` - the first two octets. -/
def ipPrefix2 (ip_address : String) : String :=
  String.intercalate "." ((pyStrSplit ip_address '.').take 2)

/-- `set.add`: Python set insertion, modelled on a duplicate-free list
(iteration order of a Python set is unspecified; insertion order is used
as a concrete stand-in, no claim depends on it). -/
def setAdd (s : List String) (x : String) : List String :=
  if x ∈ s then s else s ++ [x]

/-- Translation of `AdRequestTracker._update_behavior_patterns`.
When a profile row exists the code computes, in order:
`total = existing[1] + 1`;
`avg_requests = total / ((timestamp - datetime.fromisoformat(existing[5])).days + 1)`
(column 5 is last_seen); then builds the country set from
`existing[2].split(',')` when `existing[2]` is truthy (column 2 is the
REAL avg_requests_per_day) and the ip-prefix set from `existing[3]`
(column 3 is common_countries), and finally executes the UPDATE.
When no row exists it INSERTs (advertising_id, 1, 1.0, country_code,
ip_prefix, timestamp, timestamp). -/
def update_behavior_patterns (tbl : List ProfileRow) (advertising_id : String)
    (ts : Int) (country_code : String) (ip_address : String) :
    Except String (List ProfileRow) :=
  let ipPfx := ipPrefix2 ip_address
  match fetchone tbl advertising_id with
  | some existing =>
    let row := existing.toPyRow
    match row.getD 1 .none with
    | .int prevTotal =>
      let total := prevTotal + 1
      match pyFromIso (row.getD 5 .none) with
      | .error e => .error e
      | .ok firstSeenRead =>
        let days := Int.fdiv (ts - firstSeenRead) 86400
        if days + 1 = 0 then .error "ZeroDivisionError: division by zero"
        else
          let avg : ℚ := (total : ℚ) / ((days + 1 : Int) : ℚ)
          match (if pyTruthy (row.getD 2 .none)
                 then (pySplit (row.getD 2 .none) ',').map (fun l => l.dedup)
                 else .ok []) with
          | .error e => .error e
          | .ok cs0 =>
            let countries := setAdd cs0 country_code
            match (if pyTruthy (row.getD 3 .none)
                   then (pySplit (row.getD 3 .none) ',').map (fun l => l.dedup)
                   else .ok []) with
            | .error e => .error e
            | .ok ps0 =>
              let ipPfxSet := setAdd ps0 ipPfx
              .ok (tbl.map (fun r =>
                if r.advertising_id = advertising_id then
                  { r with total_requests := total,
                           avg_requests_per_day := avg,
                           common_countries := String.intercalate "," countries,
                           common_ip_prefixes := String.intercalate "," ipPfxSet,
                           last_seen := ts }
                else r))
    | _ => .error "TypeError: unsupported operand type for +"
  | Option.none =>
    .ok (tbl ++ [{ advertising_id := advertising_id, total_requests := 1,
                   avg_requests_per_day := 1, common_countries := country_code,
                   common_ip_prefixes := ipPfx, last_seen := ts, first_seen := ts }])

/-- `_update_behavior_patterns` as invoked from `process_ad_request`:
the facade has already executed its (uncommitted) ad_requests INSERT on
its own connection, which holds SQLite's write lock on the database
file. The aggregator's SELECT on its second connection still succeeds
(readers are admitted under a RESERVED lock), so every exception the
function raises before reaching a write statement - the AttributeError,
TypeError, ValueError and ZeroDivisionError paths - fires exactly as in
a direct call; but whenever control reaches its INSERT or UPDATE, that
write on the second connection cannot acquire the lock and raises
OperationalError ("database is locked") instead of succeeding. -/
def update_behavior_patterns_from_facade (tbl : List ProfileRow)
    (advertising_id : String) (ts : Int) (country_code : String)
    (ip_address : String) : Except String (List ProfileRow) :=
  match update_behavior_patterns tbl advertising_id ts country_code ip_address with
  | .error e => .error e
  | .ok _ => .error "OperationalError: database is locked"

/-- The `DeviceInfo` dataclass. -/
structure DeviceInfo where
  advertising_id : String
  device_type : String
  ip_address : String
  user_agent : String
  device_model : Option String := Option.none
  os_version : Option String := Option.none
  timestamp : Option String := Option.none
  request_id : Option String := Option.none
deriving DecidableEq

/-- The `EnvironmentSignals` dataclass; individual signal entries are
kept opaque (only their count matters to the modelled paths). -/
structure EnvironmentSignals where
  wifi_access_points : List String := []
  cell_towers : List String := []
  bluetooth_beacons : List String := []
deriving DecidableEq

/-- A successful geolocation response: location lat/lng and accuracy. -/
structure GeoData where
  lat : ℚ
  lng : ℚ
  accuracy : ℚ
deriving DecidableEq

/-- The optional `additional_data` dict fields `process_ad_request`
reads (`app_id`, `sdk_version`, `response_status`, `ad_type`). -/
structure AdditionalData where
  app_id : Option String := Option.none
  sdk_version : Option String := Option.none
  response_status : Option Int := Option.none
  ad_type : Option String := Option.none
deriving DecidableEq

/-- A row of the `ad_requests` table, in the columns the INSERT binds. -/
structure ObsRow where
  request_id : String
  advertising_id : String
  device_type : String
  ip_address : String
  user_agent : String
  device_model : Option String
  os_version : Option String
  app_id : Option String
  sdk_version : Option String
  request_timestamp : Int
  response_status : Int
  ad_type : String
  country_code : String
  estimated_lat : Option ℚ
  estimated_lng : Option ℚ
  accuracy_radius : Option ℚ
  wifi_aps_count : Nat
  cell_towers_count : Nat
  is_vpn : Bool
deriving DecidableEq

/-- A row of the `location_history` table (minus the autoincrement id). -/
structure LocationRow where
  advertising_id : String
  request_id : String
  latitude : ℚ
  longitude : ℚ
  accuracy : ℚ
  timestamp : Int
  source : String
deriving DecidableEq

/-- The durable contents of the three tables. -/
structure TrackerState where
  ad_requests : List ObsRow
  location_history : List LocationRow
  behavior_patterns : List ProfileRow
deriving DecidableEq

/-- The dict `process_ad_request` returns on success. -/
structure ProcResult where
  request_id : String
  timestamp : Int
  geolocation : Option GeoData
  country_code : String
  vpn_detected : Bool
deriving DecidableEq

/-- Translation of `AdRequestTracker.process_ad_request`.
Durable-state semantics: the facade opens a connection, executes the
ad_requests INSERT (raising IntegrityError on a duplicate request_id)
and the optional location_history INSERT, then calls
`_update_behavior_patterns` - which opens a second connection while the
facade's uncommitted INSERT still holds the write lock, so the inner
call is `update_behavior_patterns_from_facade`: its pre-write
exceptions propagate, and any reached write raises OperationalError -
and only then would the facade commit its own connection. Hence an
exception from the profile update propagates uncaught, the buffered
inserts are rolled back, and no call through this facade ever reaches
the commit. `geoResult` is the oracle response of
`geolocate_with_signals`, consulted only when signals are supplied and
an API key is configured, mirroring the guard in the source. -/
def process_ad_request (st : TrackerState) (device_info : DeviceInfo)
    (environment_signals : Option EnvironmentSignals) (hasApiKey : Bool)
    (geoResult : Option GeoData) (request_id : String) (ts : Int)
    (additional : AdditionalData) : TrackerState × Except String ProcResult :=
  let geolocation_data : Option GeoData :=
    if environment_signals.isSome && hasApiKey then geoResult else Option.none
  match estimate_country_from_ip device_info.ip_address with
  | .error e => (st, .error e)
  | .ok country_code =>
  match detect_vpn_proxy device_info.ip_address with
  | .error e => (st, .error e)
  | .ok is_vpn =>
  if st.ad_requests.any (fun r => r.request_id == request_id) then
    (st, .error "IntegrityError: UNIQUE constraint failed")
  else
    let obs : ObsRow :=
      { request_id := request_id,
        advertising_id := device_info.advertising_id,
        device_type := device_info.device_type,
        ip_address := device_info.ip_address,
        user_agent := device_info.user_agent,
        device_model := device_info.device_model,
        os_version := device_info.os_version,
        app_id := additional.app_id,
        sdk_version := additional.sdk_version,
        request_timestamp := ts,
        response_status := additional.response_status.getD 200,
        ad_type := additional.ad_type.getD "banner",
        country_code := country_code,
        estimated_lat := geolocation_data.map GeoData.lat,
        estimated_lng := geolocation_data.map GeoData.lng,
        accuracy_radius := geolocation_data.map GeoData.accuracy,
        wifi_aps_count :=
          match environment_signals with
          | some s => s.wifi_access_points.length
          | Option.none => 0,
        cell_towers_count :=
          match environment_signals with
          | some s => s.cell_towers.length
          | Option.none => 0,
        is_vpn := is_vpn }
    let locRows : List LocationRow :=
      match geolocation_data with
      | some g =>
        [{ advertising_id := device_info.advertising_id,
           request_id := request_id, latitude := g.lat, longitude := g.lng,
           accuracy := g.accuracy, timestamp := ts,
           source := "google_geolocation_api" }]
      | Option.none => []
    match update_behavior_patterns_from_facade st.behavior_patterns
        device_info.advertising_id ts country_code device_info.ip_address with
    | .error e => (st, .error e)
    | .ok bp =>
      ({ ad_requests := st.ad_requests ++ [obs],
         location_history := st.location_history ++ locRows,
         behavior_patterns := bp },
       .ok { request_id := request_id, timestamp := ts,
             geolocation := geolocation_data, country_code := country_code,
             vpn_detected := is_vpn })

/-- Helper: the loop body of `_detect_vpn_proxy` never raises (all six
range-bound strings parse) and decides exactly membership in the three
numeric intervals. -/
theorem rangeCheck_eval (n : Int) :
    rangeCheck n datacenter_ranges = .ok (inVpnRanges n) := by
  have e1 : ip_to_int "192.0.2.0" = .ok 3221225984 := rfl
  have e2 : ip_to_int "192.0.2.255" = .ok 3221226239 := rfl
  have e3 : ip_to_int "198.18.0.0" = .ok 3323068416 := rfl
  have e4 : ip_to_int "198.19.255.255" = .ok 3323199487 := rfl
  have e5 : ip_to_int "100.64.0.0" = .ok 1681915904 := rfl
  have e6 : ip_to_int "100.127.255.255" = .ok 1686110207 := rfl
  unfold datacenter_ranges
  simp only [rangeCheck, e1, e2, e3, e4, e5, e6]
  unfold inVpnRanges
  by_cases c1 : (3221225984 : Int) ≤ n <;> by_cases c2 : n ≤ (3221226239 : Int) <;>
    by_cases c3 : (3323068416 : Int) ≤ n <;> by_cases c4 : n ≤ (3323199487 : Int) <;>
    by_cases c5 : (1681915904 : Int) ≤ n <;> by_cases c6 : n ≤ (1686110207 : Int) <;>
    simp [c1, c2, c3, c4, c5, c6]

/-- Helper: `_ip_to_int` raises whenever its input does not split into at
least four parts whose first four all parse as integers. -/
theorem ip_to_int_err (ip : String) (hbad : ip_parse_ok ip = false) :
    exceptIsOk (ip_to_int ip) = false := by
  unfold ip_parse_ok at hbad
  unfold ip_to_int
  rcases hp : pyStrSplit ip '.' with _ | ⟨p0, _ | ⟨p1, _ | ⟨p2, _ | ⟨p3, rest⟩⟩⟩⟩
  · simp [pyIndex, exceptIsOk]
  · cases h0 : pyIntOfString p0 <;>
      simp [pyInt, pyIndex, h0, exceptIsOk, List.get?]
  · cases h0 : pyIntOfString p0 <;> cases h1 : pyIntOfString p1 <;>
      simp [pyInt, pyIndex, h0, h1, exceptIsOk, List.get?]
  · cases h0 : pyIntOfString p0 <;> cases h1 : pyIntOfString p1 <;>
      cases h2 : pyIntOfString p2 <;>
      simp [pyInt, pyIndex, h0, h1, h2, exceptIsOk, List.get?]
  · rw [hp] at hbad
    cases h0 : pyIntOfString p0 <;> cases h1 : pyIntOfString p1 <;>
      cases h2 : pyIntOfString p2 <;> cases h3 : pyIntOfString p3 <;>
      simp_all [pyInt, pyIndex, exceptIsOk, List.get?, List.take, List.all]

/-- Helper: `_detect_vpn_proxy` returns normally exactly when
`_ip_to_int` does (the range table itself never raises). -/
theorem detect_vpn_isOk (ip : String) :
    exceptIsOk (detect_vpn_proxy ip) = exceptIsOk (ip_to_int ip) := by
  unfold detect_vpn_proxy
  cases h : ip_to_int ip
  · simp [exceptIsOk]
  · rename_i n
    simp [rangeCheck_eval n, exceptIsOk]

/-- C1: the claim says an update for an id with an existing profile sets
total_requests to old + 1 and avg_requests_per_day to
new_total / (d + 1) with d measured from the profile's first_seen.
Instead, evaluated at exactly the row the code creates for a first
observation (total 1, avg 1.0, countries "ASIA", ip-prefixes "192.168",
seen at time 0) and an update one day later, the code raises
AttributeError: it reads row column 2 (the REAL avg_requests_per_day)
as the country string and calls split on it, and its day difference had
read row column 5 (last_seen), not column 6 (first_seen). Nothing is
written. -/
theorem c1_update_reads_wrong_columns_and_raises :
    update_behavior_patterns
      [{ advertising_id := "AID-1", total_requests := 1, avg_requests_per_day := 1,
         common_countries := "ASIA", common_ip_prefixes := "192.168",
         last_seen := 0, first_seen := 0 }]
      "AID-1" 86400 "ASIA" "192.168.1.100"
    = .error "AttributeError: object has no attribute split" := rfl

/-- C2: the claim says an update for an id with an existing profile sets
last_seen to the new timestamp, keeps first_seen, and unions the new
country code and ip prefix into the stored sets. Instead the code
raises AttributeError before executing its UPDATE (it reads column 2,
the REAL average, as the country set source and column 3, the country
string, as the ip-prefix set source), so last_seen is not set and no
union is stored. Evaluated at a profile row the code itself creates. -/
theorem c2_update_raises_before_any_write :
    update_behavior_patterns
      [{ advertising_id := "AID-2", total_requests := 1, avg_requests_per_day := 1,
         common_countries := "US", common_ip_prefixes := "8.8",
         last_seen := 500, first_seen := 500 }]
      "AID-2" 90500 "EU" "9.9.1.2"
    = .error "AttributeError: object has no attribute split" := rfl

/-- C3: the claim says total_requests tracks the number of recorded
observations per advertising id. In fact no observation can ever be
recorded through the facade: every `process_ad_request` call leaves the
durable state exactly as it was and surfaces an exception. The profile
write inside `_update_behavior_patterns` runs on a second connection
while the facade's own uncommitted observation INSERT holds the
database write lock, so it raises OperationalError; and if a profile
row already exists (e.g. from a direct aggregator call), the update
raises AttributeError even earlier. Either way the facade never
commits, so the invariant's premise - an id with recorded observations
whose count total_requests should equal - is unsatisfiable via the
facade for any count at all. -/
theorem c3_facade_never_records (st : TrackerState) (di : DeviceInfo)
    (signals : Option EnvironmentSignals) (hasApiKey : Bool)
    (geoResult : Option GeoData) (rid : String) (ts : Int) (extra : AdditionalData) :
    (process_ad_request st di signals hasApiKey geoResult rid ts extra).1 = st ∧
      ∃ e, (process_ad_request st di signals hasApiKey geoResult rid ts extra).2
        = Except.error e := by
  unfold process_ad_request update_behavior_patterns_from_facade
  cases h1 : estimate_country_from_ip di.ip_address with
  | error e => exact ⟨rfl, e, rfl⟩
  | ok cc =>
    cases h2 : detect_vpn_proxy di.ip_address with
    | error e => exact ⟨rfl, e, rfl⟩
    | ok vpn =>
      cases h3 : st.ad_requests.any (fun r => r.request_id == rid) with
      | true => simp [h3]
      | false =>
        simp only [h3, Bool.false_eq_true, if_false]
        cases h4 : update_behavior_patterns st.behavior_patterns di.advertising_id
            ts cc di.ip_address with
        | error e => simp [h4]
        | ok tbl => simp [h4]

/-- C4: for an advertising id with no existing profile row, the update
appends exactly one new row with total_requests 1, average 1.0, the
country column holding just the given country code, the ip-prefix
column holding just the first two octets of the address, and
first_seen = last_seen = the observation timestamp. -/
theorem c4_new_profile_row (tbl : List ProfileRow) (aid cc ip : String) (ts : Int)
    (h : fetchone tbl aid = Option.none) :
    update_behavior_patterns tbl aid ts cc ip
      = .ok (tbl ++
          [{ advertising_id := aid, total_requests := 1, avg_requests_per_day := 1,
             common_countries := cc, common_ip_prefixes := ipPrefix2 ip,
             last_seen := ts, first_seen := ts }]) := by
  simp only [update_behavior_patterns, h]

/-- C4 witness: concrete instance on an empty table. -/
theorem c4_witness :
    update_behavior_patterns [] "AID-4" 100 "US" "10.20.30.40"
      = .ok [{ advertising_id := "AID-4", total_requests := 1, avg_requests_per_day := 1,
               common_countries := "US", common_ip_prefixes := ipPrefix2 "10.20.30.40",
               last_seen := 100, first_seen := 100 }] :=
  c4_new_profile_row [] "AID-4" "US" "10.20.30.40" 100 rfl

/-- C5 (amended): when the behavior-profile update raises after the
observation insert was executed, the exception propagates to the caller
unchanged (so it is not silently swallowed), but the facade never
reaches its commit: the durable state is exactly the pre-call state, so
the observation is NOT durably recorded and no partial-failure result
distinct from a plain exception is produced. -/
theorem c5_profile_update_failure_loses_observation (st : TrackerState)
    (di : DeviceInfo) (signals : Option EnvironmentSignals) (hasApiKey : Bool)
    (geoResult : Option GeoData) (rid : String) (ts : Int) (extra : AdditionalData)
    (cc : String) (vpn : Bool) (e : String)
    (h1 : estimate_country_from_ip di.ip_address = .ok cc)
    (h2 : detect_vpn_proxy di.ip_address = .ok vpn)
    (h3 : st.ad_requests.any (fun r => r.request_id == rid) = false)
    (h4 : update_behavior_patterns st.behavior_patterns di.advertising_id ts cc
            di.ip_address = .error e) :
    process_ad_request st di signals hasApiKey geoResult rid ts extra
      = (st, .error e) := by
  simp only [process_ad_request, update_behavior_patterns_from_facade, h1, h2, h3,
    h4, Bool.false_eq_true, if_false]

/-- C5 witness: a concrete state whose profile update fails; the
observation is lost and the error propagates. -/
theorem c5_witness :
    process_ad_request ⟨[], [], [⟨"AID-8", 1, 1, "US", "10.20", 50, 50⟩]⟩
        ⟨"AID-8", "android", "10.20.30.41", "UA", Option.none, Option.none,
         Option.none, Option.none⟩
        Option.none false Option.none "rid8" 86450
        ⟨Option.none, Option.none, Option.none, Option.none⟩
      = (⟨[], [], [⟨"AID-8", 1, 1, "US", "10.20", 50, 50⟩]⟩,
         .error "AttributeError: object has no attribute split") :=
  c5_profile_update_failure_loses_observation
    ⟨[], [], [⟨"AID-8", 1, 1, "US", "10.20", 50, 50⟩]⟩
    ⟨"AID-8", "android", "10.20.30.41", "UA", Option.none, Option.none,
     Option.none, Option.none⟩
    Option.none false Option.none "rid8" 86450
    ⟨Option.none, Option.none, Option.none, Option.none⟩
    "US" false "AttributeError: object has no attribute split"
    rfl rfl rfl rfl

/-- C5 counterexample: with an existing profile for the id, processing
an observation leaves the ad_requests table unchanged (the observation
is not durably recorded) and surfaces a bare exception, refuting the
claim that the observation remains durably recorded with a
partial-failure result. -/
theorem c5_counterexample :
    process_ad_request ⟨[], [], [⟨"AID-9", 1, 1, "US", "10.20", 0, 0⟩]⟩
        ⟨"AID-9", "android", "10.20.30.40", "UA", Option.none, Option.none,
         Option.none, Option.none⟩
        Option.none false Option.none "rid9" 86400
        ⟨Option.none, Option.none, Option.none, Option.none⟩
      = (⟨[], [], [⟨"AID-9", 1, 1, "US", "10.20", 0, 0⟩]⟩,
         .error "AttributeError: object has no attribute split") := rfl

/-- C6 (amended): `estimate_country` raises exactly when the input
splits on dots into exactly four parts whose FIRST part is not an
integer; when the split yields any other number of parts it returns
"UNKNOWN" - a country label, with no error - rather than failing as the
claim states. -/
theorem c6_estimate_error_iff (ip : String) :
    ((∃ e, estimate_country_from_ip ip = .error e) ↔
      ((pyStrSplit ip '.').length = 4 ∧
        pyIntOfString ((pyStrSplit ip '.').getD 0 "") = Option.none)) ∧
    ((pyStrSplit ip '.').length ≠ 4 →
      estimate_country_from_ip ip = .ok "UNKNOWN") := by
  unfold estimate_country_from_ip
  rcases hp : pyStrSplit ip '.' with _ | ⟨q0, _ | ⟨q1, _ | ⟨q2, _ | ⟨q3, rest⟩⟩⟩⟩
  · simp
  · simp
  · simp
  · simp
  · rcases rest with _ | ⟨q4, rest2⟩
    · cases h0 : pyIntOfString q0 with
      | none => simp [pyInt, h0]
      | some a =>
        simp only [pyInt, h0, List.length_cons, List.length_nil, List.getD_cons_zero]
        norm_num
        constructor
        · split_ifs <;> simp
        · split_ifs <;> simp
    · simp

/-- C6 witness: "1.2.3" does not split into four parts yet yields the
label "UNKNOWN" without failing, while "a.b.c.d" (four parts, first not
an integer) does raise. -/
theorem c6_witness :
    estimate_country_from_ip "1.2.3" = .ok "UNKNOWN" ∧
      (∃ e, estimate_country_from_ip "a.b.c.d" = Except.error e) :=
  ⟨(c6_estimate_error_iff "1.2.3").2 (by decide),
   (c6_estimate_error_iff "a.b.c.d").1.mpr (by decide)⟩

/-- C6 counterexample: two malformed addresses (not four integer
octets) for which the code returns a country label instead of failing:
"1.2.3" gives "UNKNOWN" and "1.2.x.4" even gives "US" since only the
first part is ever parsed. -/
theorem c6_counterexample :
    (estimate_country_from_ip "1.2.3" = .ok "UNKNOWN") ∧
      (estimate_country_from_ip "1.2.x.4" = .ok "US") := ⟨rfl, rfl⟩

/-- C7 counterexample: processing AID-1 from 192.168.1.100 with no
signals does not return any result at all, let alone country "EU" with
a fresh profile: the behavior-profile write runs on a second connection
while the facade's uncommitted observation INSERT holds the write lock,
so the call raises OperationalError and leaves the database empty - no
profile row with total_requests = 1 is created. -/
theorem c7_counterexample :
    process_ad_request ⟨[], [], []⟩
        ⟨"AID-1", "android", "192.168.1.100", "UA", Option.none, Option.none,
         Option.none, Option.none⟩
        Option.none true Option.none "rid7" 0
        ⟨Option.none, Option.none, Option.none, Option.none⟩
      = (⟨[], [], []⟩, .error "OperationalError: database is locked") := rfl

/-- C7 (amended): processing an observation for AID-1 from
192.168.1.100 with no environment signals raises OperationalError
("database is locked") at the behavior-profile write and records
nothing; the country heuristic itself maps that address to "ASIA" (not
"EU": first octet 192 lies in the 192-223 band), the VPN heuristic
returns false, and no location estimate is attempted. -/
theorem c7_amended_end_to_end :
    (process_ad_request ⟨[], [], []⟩
        ⟨"AID-1", "android", "192.168.1.100", "UA", Option.none, Option.none,
         Option.none, Option.none⟩
        Option.none true Option.none "rid7" 0
        ⟨Option.none, Option.none, Option.none, Option.none⟩
      = (⟨[], [], []⟩, .error "OperationalError: database is locked")) ∧
    estimate_country_from_ip "192.168.1.100" = .ok "ASIA" ∧
    detect_vpn_proxy "192.168.1.100" = .ok false :=
  ⟨rfl, rfl, rfl⟩

/-- C8: on every valid dotted-quad IPv4 string (four parts, each an
integer octet between 0 and 255), `estimate_country` returns normally
with the band of the first octet alone - 1-126 "US", 128-191 "EU",
192-223 "ASIA", anything else (0, 127, 224-255) "UNKNOWN" - which is
always one of the four labels. -/
theorem c8_estimate_country_pure_band (ip p0 p1 p2 p3 : String) (a b c d : Int)
    (hsplit : pyStrSplit ip '.' = [p0, p1, p2, p3])
    (h0 : pyIntOfString p0 = some a) (h1 : pyIntOfString p1 = some b)
    (h2 : pyIntOfString p2 = some c) (h3 : pyIntOfString p3 = some d)
    (hb0 : 0 ≤ a ∧ a ≤ 255) (hb1 : 0 ≤ b ∧ b ≤ 255)
    (hb2 : 0 ≤ c ∧ c ≤ 255) (hb3 : 0 ≤ d ∧ d ≤ 255) :
    estimate_country_from_ip ip = .ok (countryBand a) ∧
      countryBand a ∈ (["US", "EU", "ASIA", "UNKNOWN"] : List String) := by
  constructor
  · unfold estimate_country_from_ip pyInt
    rw [hsplit]
    simp only [List.length_cons, List.length_nil, List.getD_cons_zero]
    rw [h0]
    unfold countryBand
    norm_num
    split_ifs <;> rfl
  · unfold countryBand
    split_ifs <;> simp

/-- C8 witness: concrete valid quads, one inside a band (10.0.0.1 is
"US") and one outside every band (224.0.0.1 is "UNKNOWN"). -/
theorem c8_witness :
    (estimate_country_from_ip "10.0.0.1" = .ok (countryBand 10) ∧
      countryBand 10 ∈ (["US", "EU", "ASIA", "UNKNOWN"] : List String)) ∧
    (estimate_country_from_ip "224.0.0.1" = .ok (countryBand 224) ∧
      countryBand 224 ∈ (["US", "EU", "ASIA", "UNKNOWN"] : List String)) :=
  ⟨c8_estimate_country_pure_band "10.0.0.1" "10" "0" "0" "1" 10 0 0 1 (by decide)
      (by decide) (by decide) (by decide) (by decide) (by decide) (by decide)
      (by decide) (by decide),
   c8_estimate_country_pure_band "224.0.0.1" "224" "0" "0" "1" 224 0 0 1 (by decide)
      (by decide) (by decide) (by decide) (by decide) (by decide) (by decide)
      (by decide) (by decide)⟩

/-- C9: on every valid IPv4 address (four integer octets, each 0-255),
`is_suspected_vpn` returns normally with true exactly when the 32-bit
value of the address lies in one of the three reserved ranges
192.0.2.0/24, 198.18.0.0/15, 100.64.0.0/10. -/
theorem c9_detect_vpn_ranges (ip p0 p1 p2 p3 : String) (a b c d : Int)
    (hsplit : pyStrSplit ip '.' = [p0, p1, p2, p3])
    (h0 : pyIntOfString p0 = some a) (h1 : pyIntOfString p1 = some b)
    (h2 : pyIntOfString p2 = some c) (h3 : pyIntOfString p3 = some d)
    (hb0 : 0 ≤ a ∧ a ≤ 255) (hb1 : 0 ≤ b ∧ b ≤ 255)
    (hb2 : 0 ≤ c ∧ c ≤ 255) (hb3 : 0 ≤ d ∧ d ≤ 255) :
    detect_vpn_proxy ip = .ok (inVpnRanges (a * 16777216 + b * 65536 + c * 256 + d)) := by
  have hn : ip_to_int ip = .ok (a * 16777216 + b * 65536 + c * 256 + d) := by
    unfold ip_to_int pyInt
    rw [hsplit]
    simp only [pyIndex, List.get?]
    rw [h0, h1, h2, h3]
  unfold detect_vpn_proxy
  rw [hn]
  exact rangeCheck_eval _

/-- C9 witness: 198.18.5.5 (inside 198.18.0.0/15) is flagged true and
8.8.8.8 (outside all three ranges) is flagged false. -/
theorem c9_witness :
    detect_vpn_proxy "198.18.5.5" = Except.ok true ∧
      detect_vpn_proxy "8.8.8.8" = Except.ok false :=
  ⟨(c9_detect_vpn_ranges "198.18.5.5" "198" "18" "5" "5" 198 18 5 5 (by decide)
      (by decide) (by decide) (by decide) (by decide) (by decide) (by decide)
      (by decide) (by decide)).trans (congrArg Except.ok (by decide)),
   (c9_detect_vpn_ranges "8.8.8.8" "8" "8" "8" "8" 8 8 8 8 (by decide) (by decide)
      (by decide) (by decide) (by decide) (by decide) (by decide) (by decide)
      (by decide)).trans (congrArg Except.ok (by decide))⟩

/-- C10: the VPN check is not total: on every string that does not
split on dots into at least four parts whose first four parts all parse
as integers, `detect_vpn_proxy` raises instead of returning a boolean,
whereas `estimate_country` returns the label "UNKNOWN" for every input
that does not split into exactly four parts. -/
theorem c10_vpn_check_not_total (ip : String) (hbad : ip_parse_ok ip = false) :
    exceptIsOk (detect_vpn_proxy ip) = false ∧
      ((pyStrSplit ip '.').length ≠ 4 →
        estimate_country_from_ip ip = .ok "UNKNOWN") := by
  constructor
  · rw [detect_vpn_isOk]
    exact ip_to_int_err ip hbad
  · intro h
    simp [estimate_country_from_ip, h]

/-- C10 witness: "1.2.3" makes the VPN check raise while the country
heuristic returns "UNKNOWN". -/
theorem c10_witness :
    exceptIsOk (detect_vpn_proxy "1.2.3") = false ∧
      estimate_country_from_ip "1.2.3" = .ok "UNKNOWN" :=
  ⟨(c10_vpn_check_not_total "1.2.3" (by decide)).1,
   (c10_vpn_check_not_total "1.2.3" (by decide)).2 (by decide)⟩
